import Mathlib

/-!
Shallow embedding of the bevy_single crate (src/lib.rs): the Single system
parameter that fetches exactly one matching entity from a host-engine query.
Host-engine (bevy_ecs) operations are external to the repository; they are
modelled from the spec's description of the host contract. Panics are
modelled as Except errors of type PanicCause: such an error is a fatal
invocation abort, not a recoverable value.
-/

namespace BevySingle

/-- Change-detection timestamp of the host engine (bevy_ecs Tick). -/
abbrev Tick := Nat

/-- Modelled from the spec: a point-in-time snapshot of the host world as seen
by one query instantiation (data shape D, filter shape F). The host query
subsystem, which is not part of this repository, reports for a change window
(last_run, this_run) the query items of the entities matching the shape and
the filter. -/
structure WorldModel (α : Type) where
  id : Nat
  matchedItems : Tick → Tick → List α

/-- Modelled from the spec: the host engine's private SystemMeta, with its
fields in declaration order: name, component_access_set,
archetype_component_access, is_send, has_deferred, last_run. Access sets are
modelled as lists of ids. -/
structure SystemMeta where
  name : String
  component_access_set : List Nat
  archetype_component_access : List Nat
  is_send : Bool
  has_deferred : Bool
  last_run : Tick

/-- The locally declared mirror struct from the source (SystemMetaPublicFields),
field for field in the same order as the host SystemMeta. -/
structure SystemMetaPublicFields where
  _name : String
  _component_access_set : List Nat
  _archetype_component_access : List Nat
  _is_send : Bool
  _has_deferred : Bool
  last_run : Tick

/-- The mem.transmute performed in get_param: reinterpret the system metadata
as the mirror struct. With identical field layout this is the positional
field-for-field map. -/
def transmuteSystemMeta (m : SystemMeta) : SystemMetaPublicFields :=
  ⟨m.name, m.component_access_set, m.archetype_component_access,
    m.is_send, m.has_deferred, m.last_run⟩

/-- Modelled from the spec: the host persistent query state (bevy_ecs
QueryState): the id of the world it was created from, the component access
the query requires, and the archetypes registered so far. It stores no
fetched item and no wrapper. -/
structure QueryState where
  world_id : Nat
  component_access : List Nat
  matched_archetypes : List Nat

/-- The host error reported by the single-entity fetch: zero matches, or more
than one match. -/
inductive QuerySingleError where
  | NoEntities : QuerySingleError
  | MultipleEntities : QuerySingleError

/-- An aborted invocation: the world-validation panic, or the unwrap of a
failed single-entity fetch. Both are fatal aborts of the invocation, not
recoverable error values. -/
inductive PanicCause where
  | wrongWorld : PanicCause
  | unwrapErr : QuerySingleError → PanicCause

/-- Modelled from the spec: host QueryState.validate_world — the invocation
aborts (panics) unless the id of the world passed in is the id of the world
the query state was created from. -/
def validate_world (state : QueryState) (world_id : Nat) : Except PanicCause Unit :=
  if state.world_id = world_id then Except.ok () else Except.error PanicCause.wrongWorld

/-- Modelled from the spec: host QueryState.get_single_unchecked_manual — asks
the query for its matches in the given change window and reports the
three-way outcome: the unique item, or the zero / more-than-one match-count
errors. -/
def get_single_unchecked_manual {α : Type} (world : WorldModel α)
    (last_run this_run : Tick) : Except QuerySingleError α :=
  match world.matchedItems last_run this_run with
  | [] => Except.error QuerySingleError.NoEntities
  | [x] => Except.ok x
  | _ :: _ :: _ => Except.error QuerySingleError.MultipleEntities

/-- Modelled from the spec: the host generic Query parameter's init_state —
builds the query state from the world and registers the query's component
access requirements on the system metadata. -/
def Query.init_state {α : Type} (queryAccess : List Nat) (world : WorldModel α)
    (meta : SystemMeta) : QueryState × SystemMeta :=
  (⟨world.id, queryAccess, []⟩,
    { meta with component_access_set := meta.component_access_set ++ queryAccess })

/-- Modelled from the spec: the host generic Query parameter's new_archetype —
extends the query state with the newly appeared archetype and registers the
corresponding archetype component access on the system metadata. -/
def Query.new_archetype (state : QueryState) (archetype : Nat)
    (meta : SystemMeta) : QueryState × SystemMeta :=
  ({ state with matched_archetypes := state.matched_archetypes ++ [archetype] },
    { meta with archetype_component_access :=
        meta.archetype_component_access ++ [archetype] })

/-- The wrapper from the source: pub struct Single(...), a single-field
container holding one query item (the pub field .0 of the tuple struct). -/
structure Single (α : Type) where
  item : α

/-- Deref for Single from the source: a reference to the wrapped item
(field .0). -/
def Single.deref {α : Type} (s : Single α) : α := s.item

/-- DerefMut for Single from the source, read direction: the mutable
reference targets the wrapped item, so reading through it yields the item. -/
def Single.deref_mut_get {α : Type} (s : Single α) : α := s.item

/-- DerefMut for Single from the source, write direction: writing through the
mutable reference replaces the wrapped item. -/
def Single.deref_mut_set {α : Type} (_s : Single α) (a : α) : Single α := ⟨a⟩

/-- Single's persistent State from the source: the host QueryState alone. -/
abbrev Single.State := QueryState

/-- Single's init_state from the source: forwards to the host Query parameter
implementation. -/
def Single.init_state {α : Type} (queryAccess : List Nat) (world : WorldModel α)
    (meta : SystemMeta) : QueryState × SystemMeta :=
  Query.init_state queryAccess world meta

/-- Single's new_archetype from the source: forwards to the host Query
parameter implementation. -/
def Single.new_archetype (state : QueryState) (archetype : Nat)
    (meta : SystemMeta) : QueryState × SystemMeta :=
  Query.new_archetype state archetype meta

/-- Single.get_param from the source: validate the world, reinterpret the
system metadata as the mirror struct to read last_run, perform the host
single-entity fetch with that last_run and the caller's change_tick, unwrap
it (a fetch error aborts the invocation), and wrap the item. The mutable
borrow of the state is modelled state-in / state-out; the body never mutates
it. -/
def Single.get_param {α : Type} (state : QueryState) (system_meta : SystemMeta)
    (world : WorldModel α) (change_tick : Tick) :
    QueryState × Except PanicCause (Single α) :=
  (state,
    match validate_world state world.id with
    | Except.error e => Except.error e
    | Except.ok _ =>
      let public_meta : SystemMetaPublicFields := transmuteSystemMeta system_meta
      match get_single_unchecked_manual world public_meta.last_run change_tick with
      | Except.ok single => Except.ok (Single.mk single)
      | Except.error e => Except.error (PanicCause.unwrapErr e))

/-- The shapes of query data D over which Single is instantiated: a shared
component reference, an exclusive (mutable) component reference, the entity
id, and tuple composition. Component ids are Nat. -/
inductive QueryDataShape where
  | refData : Nat → QueryDataShape
  | mutData : Nat → QueryDataShape
  | entity : QueryDataShape
  | pair : QueryDataShape → QueryDataShape → QueryDataShape

/-- Modelled from the spec: the host ReadOnlyQueryData marker holds for a
shared reference and for the entity id, and for a tuple exactly when it holds
for both components; an exclusive (mutable) reference is not read-only. -/
def QueryDataShape.readOnlyQueryData : QueryDataShape → Bool
  | QueryDataShape.refData _ => true
  | QueryDataShape.mutData _ => false
  | QueryDataShape.entity => true
  | QueryDataShape.pair a b => a.readOnlyQueryData && b.readOnlyQueryData

/-- The component ids to which the query item grants mutable access. -/
def QueryDataShape.writeAccess : QueryDataShape → List Nat
  | QueryDataShape.refData _ => []
  | QueryDataShape.mutData c => [c]
  | QueryDataShape.entity => []
  | QueryDataShape.pair a b => a.writeAccess ++ b.writeAccess

/-- From the source: the ReadOnlySystemParam impl for Single is provided
exactly under the bound D: ReadOnlyQueryData. -/
def Single.readOnlySystemParam (d : QueryDataShape) : Bool :=
  d.readOnlyQueryData

/-- Concrete world with exactly one matching entity, for witnesses. -/
def worldOne : WorldModel Nat := ⟨0, fun _ _ => [7]⟩

/-- Concrete world with no matching entity, for witnesses. -/
def worldNone : WorldModel Nat := ⟨0, fun _ _ => []⟩

/-- Concrete world with two matching entities, for witnesses. -/
def worldTwo : WorldModel Nat := ⟨0, fun _ _ => [7, 8]⟩

/-- Concrete system metadata with last_run = 3, for witnesses. -/
def metaEx : SystemMeta := ⟨"sys", [1], [2], true, false, 3⟩

/-- Concrete query state created from world id 0, for witnesses. -/
def stateEx : QueryState := ⟨0, [1], []⟩

/-- Concrete query state created from a different world (id 1), for
witnesses. -/
def stateOther : QueryState := ⟨1, [1], []⟩

/-- C1: for every world in which exactly one entity matches the data shape and
filter (in the change window the fetch uses) and which the query state was
created from, Single.get_param returns a wrapper whose single field is exactly
that entity's query item, unchanged from what the host fetch produces. -/
theorem single_get_param_unique {α : Type} (state : QueryState) (meta : SystemMeta)
    (world : WorldModel α) (change_tick : Tick) (x : α)
    (hw : state.world_id = world.id)
    (hm : world.matchedItems (transmuteSystemMeta meta).last_run change_tick = [x]) :
    (Single.get_param state meta world change_tick).2 = Except.ok (Single.mk x) := by
  simp [Single.get_param, validate_world, get_single_unchecked_manual, hw, hm]

/-- Witness for C1: a concrete world with exactly one match, item 7. -/
theorem single_get_param_unique_witness :
    stateEx.world_id = worldOne.id ∧
    worldOne.matchedItems (transmuteSystemMeta metaEx).last_run 5 = [7] ∧
    (Single.get_param stateEx metaEx worldOne 5).2 = Except.ok (Single.mk 7) :=
  ⟨rfl, rfl, single_get_param_unique stateEx metaEx worldOne 5 7 rfl rfl⟩

/-- C2: on the world the state was created from, Single.get_param aborts with a
panic (the unwrap of the fetch error) when zero entities match and when more
than one entity matches; it succeeds exactly when the match count is one, so
these are the only two match-count failure conditions, and both are PanicCause
aborts rather than recoverable error values. -/
theorem single_get_param_abort_nonunique {α : Type} (state : QueryState)
    (meta : SystemMeta) (world : WorldModel α) (change_tick : Tick)
    (hw : state.world_id = world.id) :
    (world.matchedItems (transmuteSystemMeta meta).last_run change_tick = [] →
      (Single.get_param state meta world change_tick).2 =
        Except.error (PanicCause.unwrapErr QuerySingleError.NoEntities)) ∧
    (2 ≤ (world.matchedItems (transmuteSystemMeta meta).last_run change_tick).length →
      (Single.get_param state meta world change_tick).2 =
        Except.error (PanicCause.unwrapErr QuerySingleError.MultipleEntities)) ∧
    ((∃ s, (Single.get_param state meta world change_tick).2 = Except.ok s) ↔
      (world.matchedItems (transmuteSystemMeta meta).last_run change_tick).length = 1) := by
  rcases hms : world.matchedItems (transmuteSystemMeta meta).last_run change_tick with
    _ | ⟨x, _ | ⟨y, l⟩⟩ <;>
    simp [Single.get_param, validate_world, get_single_unchecked_manual, hw, hms]

/-- Witness for C2: concrete worlds with zero and with two matches. -/
theorem single_get_param_abort_nonunique_witness :
    stateEx.world_id = worldNone.id ∧
    (Single.get_param stateEx metaEx worldNone 5).2 =
      Except.error (PanicCause.unwrapErr QuerySingleError.NoEntities) ∧
    (Single.get_param stateEx metaEx worldTwo 5).2 =
      Except.error (PanicCause.unwrapErr QuerySingleError.MultipleEntities) :=
  ⟨rfl,
    (single_get_param_abort_nonunique stateEx metaEx worldNone 5 rfl).1 rfl,
    (single_get_param_abort_nonunique stateEx metaEx worldTwo 5 rfl).2.1 (by decide)⟩

/-- C3: Single's init_state and new_archetype are extensionally equal to the
host Query parameter implementation on the same arguments: they register the
same persistent state and the same access requirements on the system
metadata; Single adds behaviour only in get_param. -/
theorem single_forwards_to_query {α : Type} :
    (∀ (queryAccess : List Nat) (world : WorldModel α) (meta : SystemMeta),
      Single.init_state queryAccess world meta = Query.init_state queryAccess world meta) ∧
    (∀ (state : QueryState) (archetype : Nat) (meta : SystemMeta),
      Single.new_archetype state archetype meta = Query.new_archetype state archetype meta) :=
  ⟨fun _ _ _ => rfl, fun _ _ _ => rfl⟩

/-- C4: the wrapper is a transparent single-field container with pass-through
access: deref reads exactly the wrapped item, the mutable path targets the
same field, and a write through the mutable path is seen by every subsequent
deref of the same wrapper. -/
theorem single_deref_pass_through {α : Type} (s : Single α) (a : α) :
    Single.deref s = s.item ∧
    Single.deref_mut_get s = s.item ∧
    Single.deref (Single.deref_mut_set s a) = a :=
  ⟨rfl, rfl, rfl⟩

/-- C5: whenever get_param returns a wrapper, the host fetch of this very
invocation produced exactly the wrapped item as the unique match; in every
other case the invocation fails before any wrapper is constructed, so no
Single value exists that does not wrap a successfully fetched unique item. -/
theorem single_wraps_unique_fetched {α : Type} (state : QueryState)
    (meta : SystemMeta) (world : WorldModel α) (change_tick : Tick) (s : Single α)
    (h : (Single.get_param state meta world change_tick).2 = Except.ok s) :
    world.matchedItems (transmuteSystemMeta meta).last_run change_tick = [s.item] := by
  by_cases hw : state.world_id = world.id
  · rcases hms : world.matchedItems (transmuteSystemMeta meta).last_run change_tick with
      _ | ⟨x, _ | ⟨y, l⟩⟩
    · simp [Single.get_param, validate_world, get_single_unchecked_manual, hw, hms] at h
    · simp [Single.get_param, validate_world, get_single_unchecked_manual, hw, hms] at h
      simp [← h]
    · simp [Single.get_param, validate_world, get_single_unchecked_manual, hw, hms] at h
  · simp [Single.get_param, validate_world, hw] at h

/-- Witness for C5: the concrete one-match world; the wrapper holds item 7 and
the fetch indeed produced exactly that item. -/
theorem single_wraps_unique_fetched_witness :
    (Single.get_param stateEx metaEx worldOne 5).2 = Except.ok (Single.mk 7) ∧
    worldOne.matchedItems (transmuteSystemMeta metaEx).last_run 5 = [(Single.mk 7).item] :=
  ⟨rfl, single_wraps_unique_fetched stateEx metaEx worldOne 5 (Single.mk 7) rfl⟩

/-- C6: the persistent state of the Single parameter is the host QueryState
alone: get_param hands it back exactly as passed in, storing no fetched item
or wrapper, and a later invocation from the threaded state behaves exactly as
one from the original state, so no wrapper value survives across or is shared
between invocations. -/
theorem single_state_not_persisted {α : Type} (state : QueryState)
    (m m' : SystemMeta) (w w' : WorldModel α) (t t' : Tick) :
    (Single.get_param state m w t).1 = state ∧
    Single.get_param (Single.get_param state m w t).1 m' w' t' =
      Single.get_param state m' w' t' :=
  ⟨rfl, rfl⟩

/-- C7: get_param reads last_run by reinterpreting the system metadata as the
mirror struct SystemMetaPublicFields — the positional field map, which
preserves last_run exactly when the layouts coincide field for field — and
performs the host single-entity fetch with that last_run and the caller's
change_tick; its unwrapped outcome is the invocation's result. -/
theorem single_get_param_uses_transmuted_last_run {α : Type} (state : QueryState)
    (meta : SystemMeta) (world : WorldModel α) (change_tick : Tick)
    (hw : state.world_id = world.id) :
    (transmuteSystemMeta meta).last_run = meta.last_run ∧
    (Single.get_param state meta world change_tick).2 =
      (match get_single_unchecked_manual world (transmuteSystemMeta meta).last_run change_tick with
        | Except.ok x => Except.ok (Single.mk x)
        | Except.error e => Except.error (PanicCause.unwrapErr e)) := by
  refine ⟨rfl, ?_⟩
  simp [Single.get_param, validate_world, hw]

/-- Witness for C7 at concrete metadata with last_run = 3. -/
theorem single_get_param_uses_transmuted_last_run_witness :
    stateEx.world_id = worldOne.id ∧
    ((transmuteSystemMeta metaEx).last_run = metaEx.last_run ∧
      (Single.get_param stateEx metaEx worldOne 5).2 =
        (match get_single_unchecked_manual worldOne (transmuteSystemMeta metaEx).last_run 5 with
          | Except.ok x => Except.ok (Single.mk x)
          | Except.error e => Except.error (PanicCause.unwrapErr e))) :=
  ⟨rfl, single_get_param_uses_transmuted_last_run stateEx metaEx worldOne 5 rfl⟩

/-- C8: Single is registered as a read-only system parameter only when the
data shape is ReadOnlyQueryData, and every instantiation so registered grants
no mutable access to any component through the wrapped item. -/
theorem single_read_only_no_write_access (d : QueryDataShape)
    (h : Single.readOnlySystemParam d = true) :
    QueryDataShape.writeAccess d = [] := by
  induction d with
  | refData c => rfl
  | mutData c =>
    simp [Single.readOnlySystemParam, QueryDataShape.readOnlyQueryData] at h
  | entity => rfl
  | pair a b iha ihb =>
    simp [Single.readOnlySystemParam, QueryDataShape.readOnlyQueryData] at h
    simp [QueryDataShape.writeAccess, iha h.1, ihb h.2]

/-- Witness for C8: a concrete read-only shape (a shared reference paired with
the entity id) with empty write access. -/
theorem single_read_only_no_write_access_witness :
    Single.readOnlySystemParam
      (QueryDataShape.pair (QueryDataShape.refData 0) QueryDataShape.entity) = true ∧
    QueryDataShape.writeAccess
      (QueryDataShape.pair (QueryDataShape.refData 0) QueryDataShape.entity) = [] :=
  ⟨rfl, single_read_only_no_write_access
    (QueryDataShape.pair (QueryDataShape.refData 0) QueryDataShape.entity) rfl⟩

/-- C9: get_param validates the world id first: when the id of the world
passed in differs from the world the query state was created from, the
invocation aborts with the world-validation panic — for every such world,
whatever its matches, so the fetch is never reached. -/
theorem single_get_param_validates_world {α : Type} (state : QueryState)
    (meta : SystemMeta) (world : WorldModel α) (change_tick : Tick)
    (hw : state.world_id ≠ world.id) :
    (Single.get_param state meta world change_tick).2 =
      Except.error PanicCause.wrongWorld := by
  simp [Single.get_param, validate_world, hw]

/-- Witness for C9: a state created from world 1 invoked on world 0 aborts
with the world-validation panic even though that world has two matches. -/
theorem single_get_param_validates_world_witness :
    stateOther.world_id ≠ worldTwo.id ∧
    (Single.get_param stateOther metaEx worldTwo 5).2 =
      Except.error PanicCause.wrongWorld :=
  ⟨by decide, single_get_param_validates_world stateOther metaEx worldTwo 5 (by decide)⟩

end BevySingle
